import Mathlib

/-!
Verification of the politeia repository specification.

The repository's only non-trivial component is the email rate limiter
(politeiawww/email).  The limiter implementation file itself is not among
the provided sources — only its unit test (limiter_test.go) is — so the
limiter's operations are modelled from the specification, faithful to its
words, and checked against the behavior the unit test pins down.  The HTTP
handlers (politeiawww/cmswww.go) and the dcrdata plugin command
(cmdBestBlock) are translated directly from their Go sources.
-/

/- ===================== Email limiter data model ===================== -/

/-- EmailHistory24h, from politeiawww/user (as used by limiter_test.go):
one record per recipient address holding the recipient identifier, the
timestamps of the sends attributed to it inside the trailing 24-hour
window, and the one-shot limit-warning flag.  Timestamps are modelled as
natural-number instants; the limiter never inspects their values. -/
structure EmailHistory24h where
  Email : String
  SentTimestamps24h : List Nat
  LimitWarningSent : Bool
deriving DecidableEq, Repr

/-- An observable call the limiter makes on its two collaborators
(HistoryStore and Mailer). -/
inductive Call where
  | fetchHistories (recipients : List String)
  | mailerSendTo (subject body : String) (recipients : List String)
  | refreshHistories (records : List EmailHistory24h) (warningJustSent : Bool)
deriving DecidableEq, Repr

/-- Modelled from the spec: the limiter's immutable configuration — the
per-recipient per-24h send threshold ("0 or negative disables limiting
entirely for that instance").  The Mailer and HistoryStore handles are
passed to SendTo as explicit oracles. -/
structure Limiter where
  threshold : Int
deriving DecidableEq, Repr

/-- Modelled from the spec: a recipient with no fetched record "is treated
as having empty history" — look the recipient up in the fetched records by
Email and default to a fresh record. -/
def findHistory (hs : List EmailHistory24h) (r : String) : EmailHistory24h :=
  match hs.find? (fun h => h.Email == r) with
  | some h => h
  | none => ⟨r, [], false⟩

/-- Modelled from the spec: a recipient is under quota when the stored
slice length is below the threshold; a threshold of 0 or a negative value
disables limiting entirely, so every recipient counts as under quota. -/
def underQuota (threshold : Int) (h : EmailHistory24h) : Bool :=
  decide (threshold ≤ 0) || decide ((h.SentTimestamps24h.length : Int) < threshold)

/-- Modelled from the spec: a recipient is newly over quota when the stored
slice length has reached the threshold and the limit warning has not yet
been sent. -/
def newlyOverQuota (threshold : Int) (h : EmailHistory24h) : Bool :=
  !underQuota threshold h && !h.LimitWarningSent

/-- Modelled from the spec: a recipient is suppressed when over quota and
already warned — no send, no warning, no persistence change. -/
def suppressedRecipient (threshold : Int) (h : EmailHistory24h) : Bool :=
  !underQuota threshold h && h.LimitWarningSent

/-- The normal-send cohort: the recipients, in caller order, that are under
quota (duplicates are the caller's responsibility). -/
def goodRecipients (threshold : Int) (fetched : List EmailHistory24h)
    (recipients : List String) : List String :=
  recipients.filter (fun r => underQuota threshold (findHistory fetched r))

/-- The warn-once cohort: the recipients, in caller order, that are newly
over quota. -/
def badRecipients (threshold : Int) (fetched : List EmailHistory24h)
    (recipients : List String) : List String :=
  recipients.filter (fun r => newlyOverQuota threshold (findHistory fetched r))

/-- The suppressed cohort: over quota and already warned. -/
def suppressedRecipients (threshold : Int) (fetched : List EmailHistory24h)
    (recipients : List String) : List String :=
  recipients.filter (fun r => suppressedRecipient threshold (findHistory fetched r))

/-- The Mailer.SendTo calls the limiter issues: one call per outcome group
that has at least one member, carrying the caller's subject and body
unchanged. -/
def sendCallsOf (subject body : String) (good bad : List String) : List Call :=
  (if good.isEmpty then [] else [Call.mailerSendTo subject body good])
    ++ (if bad.isEmpty then [] else [Call.mailerSendTo subject body bad])

/-- The RefreshHistories calls the limiter issues: one call per outcome
group whose composition changed, carrying that cohort's fetched records
(as the unit test pins down, the records are passed as fetched, with the
batch-level warningJustSent flag marking the freshly-warned cohort). -/
def refreshCallsOf (fetched : List EmailHistory24h) (good bad : List String) : List Call :=
  (if good.isEmpty then []
   else [Call.refreshHistories (good.map (findHistory fetched)) false])
    ++ (if bad.isEmpty then []
        else [Call.refreshHistories (bad.map (findHistory fetched)) true])

/-- The collaborator results, in execution order, that SendTo aggregates:
each Mailer call's result followed by each refresh call's result. -/
def errListOf (sendO : String → String → List String → Option String)
    (refreshO : List EmailHistory24h → Bool → Option String)
    (subject body : String) (fetched : List EmailHistory24h)
    (good bad : List String) : List (Option String) :=
  (if good.isEmpty then [] else [sendO subject body good])
    ++ (if bad.isEmpty then [] else [sendO subject body bad])
    ++ (if good.isEmpty then [] else [refreshO (good.map (findHistory fetched)) false])
    ++ (if bad.isEmpty then [] else [refreshO (bad.map (findHistory fetched)) true])

/-- The first error among a sequence of step results, or none. -/
def firstError : List (Option String) → Option String
  | [] => none
  | some e :: _ => some e
  | none :: rest => firstError rest

/-- Modelled from the spec: EmailLimiter.SendTo (politeiawww/email/limiter.go
is absent from the sources; only limiter_test.go is present).  The Mailer
and HistoryStore are oracles: fetchO answers FetchHistories, sendO answers
Mailer.SendTo, refreshO answers RefreshHistories; none means success.
SendTo fetches the recipients' histories (aborting on a fetch error with
that error unchanged), partitions the recipients into the normal-send,
warn-once and suppressed cohorts, issues one Mailer call and one refresh
call per non-empty cohort that requires them, and returns the first error
encountered.  The result is the list of collaborator calls made, in order,
paired with the returned error. -/
def SendTo (l : Limiter)
    (fetchO : List String → Except String (List EmailHistory24h))
    (sendO : String → String → List String → Option String)
    (refreshO : List EmailHistory24h → Bool → Option String)
    (subject body : String) (recipients : List String) :
    List Call × Option String :=
  match fetchO recipients with
  | Except.error e => ([Call.fetchHistories recipients], some e)
  | Except.ok fetched =>
    (Call.fetchHistories recipients
        :: sendCallsOf subject body (goodRecipients l.threshold fetched recipients)
            (badRecipients l.threshold fetched recipients)
        ++ refreshCallsOf fetched (goodRecipients l.threshold fetched recipients)
            (badRecipients l.threshold fetched recipients),
     firstError (errListOf sendO refreshO subject body fetched
        (goodRecipients l.threshold fetched recipients)
        (badRecipients l.threshold fetched recipients)))

/-- Modelled from the spec: the net persisted effect of
HistoryStore.RefreshHistories on one record (the store implementation is
absent from the sources).  An ordinary batch appends the current timestamp
and leaves LimitWarningSent false ("append current timestamp to its
history; LimitWarningSent stays/becomes false"); a warning batch sets
LimitWarningSent true ("LimitWarningSent becomes true for this recipient
in the persisted update"). -/
def refreshEffect (now : Nat) (warningJustSent : Bool) (h : EmailHistory24h) :
    EmailHistory24h :=
  if warningJustSent then ⟨h.Email, h.SentTimestamps24h, true⟩
  else ⟨h.Email, h.SentTimestamps24h ++ [now], false⟩

/-- The stored record for recipient r after one SendTo evaluation: under
quota gains the current timestamp with the flag false; newly over quota
keeps its timestamps and gains the flag; suppressed is untouched. -/
def persistedAfter (threshold : Int) (now : Nat)
    (fetched : List EmailHistory24h) (r : String) : EmailHistory24h :=
  if underQuota threshold (findHistory fetched r) then
    refreshEffect now false (findHistory fetched r)
  else if (findHistory fetched r).LimitWarningSent then
    findHistory fetched r
  else
    refreshEffect now true (findHistory fetched r)

/-- The Mailer.SendTo calls inside a call trace, as (subject, body,
recipients) triples. -/
def mailerCalls : List Call → List (String × String × List String)
  | [] => []
  | Call.mailerSendTo s b rs :: rest => (s, b, rs) :: mailerCalls rest
  | _ :: rest => mailerCalls rest

/-- The RefreshHistories calls inside a call trace, as (records, flag)
pairs. -/
def refreshCallsIn : List Call → List (List EmailHistory24h × Bool)
  | [] => []
  | Call.refreshHistories hs flag :: rest => (hs, flag) :: refreshCallsIn rest
  | _ :: rest => refreshCallsIn rest

/-- The result each call would get from the send/refresh oracles (none for
the fetch call, which is answered before the others are issued). -/
def callOutcome (sendO : String → String → List String → Option String)
    (refreshO : List EmailHistory24h → Bool → Option String) :
    Call → Option (Option String)
  | Call.mailerSendTo s b rs => some (sendO s b rs)
  | Call.refreshHistories hs flag => some (refreshO hs flag)
  | Call.fetchHistories _ => none

/- ===================== cmswww.go read handlers ====================== -/

/-- The outcome of the session lookup performed by
p.sessions.GetSessionUser in politeiawww/cmswww.go: a user, the sentinel
sessions.ErrSessionNotFound (with a nil user), or another error. -/
inductive SessionLookup (U : Type) where
  | ok (u : U)
  | errSessionNotFound
  | err (msg : String)

/-- A handler's HTTP response: util.RespondWithJSON of a reply, or
RespondWithError of a message. -/
inductive HandlerOut (R : Type) where
  | respondWithJSON (r : R)
  | respondWithError (msg : String)
deriving DecidableEq

/-- The user value the Go handlers continue with after the session lookup:
the session user when the lookup succeeded, nil otherwise. -/
def sessionUser {U : Type} : SessionLookup U → Option U
  | SessionLookup.ok u => some u
  | _ => none

/-- handleInvoiceDetails from politeiawww/cmswww.go: parse the GET params
(responding with ErrorStatusInvalidInput on failure), read the token path
parameter, look up the session user — an error other than
sessions.ErrSessionNotFound aborts with an error response, while
ErrSessionNotFound falls through with a nil user — then delegate to
processInvoiceDetails and respond with its reply or its error. -/
def handleInvoiceDetails {P U R : Type}
    (parsed : Except String P) (token : String)
    (session : SessionLookup U)
    (processInvoiceDetails : P → String → Option U → Except String R) :
    HandlerOut R :=
  match parsed with
  | Except.error _ => HandlerOut.respondWithError "handleInvoiceDetails: ParseGetParams"
  | Except.ok pd =>
    match session with
    | SessionLookup.err m =>
        HandlerOut.respondWithError ("handleInvoiceDetails: getSessionUser " ++ m)
    | s =>
      match processInvoiceDetails pd token (sessionUser s) with
      | Except.error m =>
          HandlerOut.respondWithError ("handleInvoiceDetails: processInvoiceDetails " ++ m)
      | Except.ok reply => HandlerOut.respondWithJSON reply

/-- handleInvoiceComments from politeiawww/cmswww.go: read the token path
parameter, look up the session user (tolerating only
sessions.ErrSessionNotFound, which yields a nil user), then delegate to
processInvoiceComments and respond with its reply or its error. -/
def handleInvoiceComments {U R : Type}
    (token : String) (session : SessionLookup U)
    (processInvoiceComments : String → Option U → Except String R) :
    HandlerOut R :=
  match session with
  | SessionLookup.err m =>
      HandlerOut.respondWithError ("handleInvoiceComments: getSessionUser " ++ m)
  | s =>
    match processInvoiceComments token (sessionUser s) with
    | Except.error m =>
        HandlerOut.respondWithError ("handleInvoiceComments: processInvoiceComments " ++ m)
    | Except.ok gcr => HandlerOut.respondWithJSON gcr

/-- handleDCCComments from politeiawww/cmswww.go: identical control flow to
handleInvoiceComments, delegating to processDCCComments. -/
def handleDCCComments {U R : Type}
    (token : String) (session : SessionLookup U)
    (processDCCComments : String → Option U → Except String R) :
    HandlerOut R :=
  match session with
  | SessionLookup.err m =>
      HandlerOut.respondWithError ("handleDCCComments: getSessionUser " ++ m)
  | s =>
    match processDCCComments token (sessionUser s) with
    | Except.error m =>
        HandlerOut.respondWithError ("handleDCCComments: processDCCComments " ++ m)
    | Except.ok gcr => HandlerOut.respondWithJSON gcr

/- ================== dcrdata plugin cmdBestBlock ===================== -/

/-- The dcrdata plugin connection status constants StatusConnected and
StatusDisconnected. -/
inductive BBStatus where
  | StatusConnected
  | StatusDisconnected
deriving DecidableEq, Repr

/-- dcrdata.BestBlockReply: the connection status and the best block
height. -/
structure BestBlockReply where
  Status : BBStatus
  Height : Nat
deriving DecidableEq, Repr

/-- cmdBestBlock from the dcrdata plugin source: bbGet is the cached best
block height (p.bestBlockGet), bbIsStale the websocket staleness flag
(p.bestBlockIsStale), and bbHTTP the result of the manual HTTP fetch
(p.bestBlockHTTP), consulted only when a fetch is required.  A zero cached
height forces a fetch with no stale fallback; a stale non-zero cache
forces a fetch with the cached value as fallback, marking the reply
disconnected when the fetch fails; a fresh non-zero cache is returned
directly as connected. -/
def cmdBestBlock (bbGet : Nat) (bbIsStale : Bool)
    (bbHTTP : Except String Nat) : Except String BestBlockReply :=
  match (if bbGet = 0 then (true, 0, BBStatus.StatusConnected)
         else if bbIsStale then (true, bbGet, BBStatus.StatusConnected)
         else (false, 0, BBStatus.StatusConnected) : Bool × Nat × BBStatus) with
  | (fetch, stale, status) =>
    if fetch then
      match bbHTTP with
      | Except.ok block => Except.ok ⟨status, block⟩
      | Except.error e =>
        if stale ≠ 0 then Except.ok ⟨BBStatus.StatusDisconnected, stale⟩
        else Except.error ("bestBlockHTTP: " ++ e)
    else Except.ok ⟨status, bbGet⟩

/- ========================= Helper lemmas ============================ -/

/-- The record findHistory returns always carries the looked-up email. -/
theorem findHistory_Email (hs : List EmailHistory24h) (r : String) :
    (findHistory hs r).Email = r := by
  unfold findHistory
  cases hfind : hs.find? (fun h => h.Email == r) with
  | none => rfl
  | some h =>
    have hp := List.find?_some hfind
    simpa using hp

/-- A list containing an element is not empty. -/
theorem isEmpty_eq_false_of_mem {α : Type} {a : α} {l : List α} (h : a ∈ l) :
    l.isEmpty = false := by
  cases l with
  | nil => cases h
  | cons x xs => rfl

/-- Filtering with pointwise-equal predicates gives equal results. -/
theorem filter_congr_of_eq {α : Type} {p q : α → Bool} {l : List α}
    (h : ∀ x ∈ l, p x = q x) : l.filter p = l.filter q := by
  induction l with
  | nil => rfl
  | cons a t ih =>
    simp only [List.filter]
    rw [h a (by simp)]
    rw [ih (fun x hx => h x (by simp [hx]))]

/-- Filtering with an everywhere-true predicate keeps the list. -/
theorem filter_of_all_true {α : Type} {p : α → Bool} {l : List α}
    (h : ∀ x ∈ l, p x = true) : l.filter p = l := by
  induction l with
  | nil => rfl
  | cons a t ih =>
    simp only [List.filter, h a (by simp)]
    rw [ih (fun x hx => h x (by simp [hx]))]

/-- Filtering with an everywhere-false predicate empties the list. -/
theorem filter_of_all_false {α : Type} {p : α → Bool} {l : List α}
    (h : ∀ x ∈ l, p x = false) : l.filter p = [] := by
  induction l with
  | nil => rfl
  | cons a t ih =>
    simp only [List.filter, h a (by simp)]
    exact ih (fun x hx => h x (by simp [hx]))

/-- Rewriting SendTo when the fetch succeeds. -/
theorem SendTo_ok {l : Limiter}
    {fetchO : List String → Except String (List EmailHistory24h)}
    {sendO : String → String → List String → Option String}
    {refreshO : List EmailHistory24h → Bool → Option String}
    {subject body : String} {recipients : List String}
    {fetched : List EmailHistory24h}
    (h : fetchO recipients = Except.ok fetched) :
    SendTo l fetchO sendO refreshO subject body recipients =
      (Call.fetchHistories recipients
          :: sendCallsOf subject body (goodRecipients l.threshold fetched recipients)
              (badRecipients l.threshold fetched recipients)
          ++ refreshCallsOf fetched (goodRecipients l.threshold fetched recipients)
              (badRecipients l.threshold fetched recipients),
       firstError (errListOf sendO refreshO subject body fetched
          (goodRecipients l.threshold fetched recipients)
          (badRecipients l.threshold fetched recipients))) := by
  unfold SendTo
  rw [h]

/-- Rewriting SendTo when the fetch fails. -/
theorem SendTo_error {l : Limiter}
    {fetchO : List String → Except String (List EmailHistory24h)}
    {sendO : String → String → List String → Option String}
    {refreshO : List EmailHistory24h → Bool → Option String}
    {subject body : String} {recipients : List String} {e : String}
    (h : fetchO recipients = Except.error e) :
    SendTo l fetchO sendO refreshO subject body recipients =
      ([Call.fetchHistories recipients], some e) := by
  unfold SendTo
  rw [h]

/-- mailerCalls skips a leading fetch call. -/
theorem mailerCalls_fetch_cons (rs : List String) (l : List Call) :
    mailerCalls (Call.fetchHistories rs :: l) = mailerCalls l := rfl

/-- mailerCalls distributes over append. -/
theorem mailerCalls_append (l1 l2 : List Call) :
    mailerCalls (l1 ++ l2) = mailerCalls l1 ++ mailerCalls l2 := by
  induction l1 with
  | nil => rfl
  | cons c rest ih =>
    cases c <;> simp [mailerCalls, ih]

/-- Refresh calls contribute no mailer calls. -/
theorem mailerCalls_refreshCallsOf (fetched : List EmailHistory24h)
    (good bad : List String) :
    mailerCalls (refreshCallsOf fetched good bad) = [] := by
  unfold refreshCallsOf
  cases hg : good.isEmpty <;> cases hb : bad.isEmpty <;>
    simp [mailerCalls]

/-- The mailer calls of the delivery step. -/
theorem mailerCalls_sendCallsOf (subject body : String) (good bad : List String) :
    mailerCalls (sendCallsOf subject body good bad) =
      (if good.isEmpty then [] else [(subject, body, good)])
        ++ (if bad.isEmpty then [] else [(subject, body, bad)]) := by
  unfold sendCallsOf
  cases hg : good.isEmpty <;> cases hb : bad.isEmpty <;>
    simp [mailerCalls]

/-- refreshCallsIn skips a leading fetch call. -/
theorem refreshCallsIn_fetch_cons (rs : List String) (l : List Call) :
    refreshCallsIn (Call.fetchHistories rs :: l) = refreshCallsIn l := rfl

/-- refreshCallsIn distributes over append. -/
theorem refreshCallsIn_append (l1 l2 : List Call) :
    refreshCallsIn (l1 ++ l2) = refreshCallsIn l1 ++ refreshCallsIn l2 := by
  induction l1 with
  | nil => rfl
  | cons c rest ih =>
    cases c <;> simp [refreshCallsIn, ih]

/-- Mailer calls contribute no refresh calls. -/
theorem refreshCallsIn_sendCallsOf (subject body : String) (good bad : List String) :
    refreshCallsIn (sendCallsOf subject body good bad) = [] := by
  unfold sendCallsOf
  cases hg : good.isEmpty <;> cases hb : bad.isEmpty <;>
    simp [refreshCallsIn]

/-- The refresh calls of the persistence step. -/
theorem refreshCallsIn_refreshCallsOf (fetched : List EmailHistory24h)
    (good bad : List String) :
    refreshCallsIn (refreshCallsOf fetched good bad) =
      (if good.isEmpty then [] else [(good.map (findHistory fetched), false)])
        ++ (if bad.isEmpty then [] else [(bad.map (findHistory fetched), true)]) := by
  unfold refreshCallsOf
  cases hg : good.isEmpty <;> cases hb : bad.isEmpty <;>
    simp [refreshCallsIn]

/- ============ C1 scenario: the limiter_test.go fixture ============== -/

/-- The "good" fixture of TestLimiter_SendTo: one prior send, no warning. -/
def goodFixture : EmailHistory24h := ⟨"good", [10], false⟩

/-- The "ignored" fixture: two prior sends, warning already sent. -/
def ignoredFixture : EmailHistory24h := ⟨"ignored", [20, 21], true⟩

/-- The "bad" fixture: two prior sends, warning not yet sent. -/
def badFixture : EmailHistory24h := ⟨"bad", [30, 31], false⟩

/-- The mailer mock of TestLimiter_SendTo: succeeds only on the caller's
subject and body with recipient lists exactly ["good"] or ["bad"]. -/
def mockSend : String → String → List String → Option String := fun s b rs =>
  if s = "some subject" ∧ b = "some body" ∧ (rs = ["good"] ∨ rs = ["bad"]) then none
  else some "unexpected rs"

/-- The store mock of TestLimiter_SendTo: FetchHistories24h succeeds, with
the configured histories, only on the expected recipients argument. -/
def mockFetch (recipients : List String) (existing : List EmailHistory24h) :
    List String → Except String (List EmailHistory24h) := fun rs =>
  if rs = recipients then Except.ok existing else Except.error "unexpected rs"

/-- The store mock of TestLimiter_SendTo: RefreshHistories24h succeeds only
on a batch headed by the "good" record with the flag false, or on exactly
the "bad" record with the flag true. -/
def mockRefresh (badH : EmailHistory24h) :
    List EmailHistory24h → Bool → Option String := fun hs flag =>
  if (hs.head?.map EmailHistory24h.Email) = some "good" ∧ flag = false then none
  else if hs = [badH] ∧ flag = true then none
  else some "unexpected arguments"

/-- C1: for a limiter with threshold 2 and recipients
["good", "ignored", "bad"] — where "good" has no record (first case) or an
under-quota record (second case), "ignored" has 2 timestamps with
LimitWarningSent true, and "bad" has 2 timestamps with LimitWarningSent
false — SendTo issues exactly one Mailer call with recipients ["good"] and
exactly one with ["bad"], both with the caller's subject and body
unchanged, no Mailer call mentioning "ignored"; it refreshes the "good"
cohort with warningJustSent false and exactly "bad"'s record with
warningJustSent true; and it returns nil.  Both cases of
TestLimiter_SendTo are covered, against the test's own mocks. -/
theorem C1_sendTo_test_scenario :
    (SendTo ⟨2⟩ (mockFetch ["good", "ignored", "bad"] [ignoredFixture, badFixture])
        mockSend (mockRefresh badFixture) "some subject" "some body"
        ["good", "ignored", "bad"] =
      ([Call.fetchHistories ["good", "ignored", "bad"],
        Call.mailerSendTo "some subject" "some body" ["good"],
        Call.mailerSendTo "some subject" "some body" ["bad"],
        Call.refreshHistories [⟨"good", [], false⟩] false,
        Call.refreshHistories [badFixture] true], none))
    ∧ (SendTo ⟨2⟩ (mockFetch ["good", "ignored", "bad"]
          [goodFixture, ignoredFixture, badFixture])
        mockSend (mockRefresh badFixture) "some subject" "some body"
        ["good", "ignored", "bad"] =
      ([Call.fetchHistories ["good", "ignored", "bad"],
        Call.mailerSendTo "some subject" "some body" ["good"],
        Call.mailerSendTo "some subject" "some body" ["bad"],
        Call.refreshHistories [goodFixture] false,
        Call.refreshHistories [badFixture] true], none))
    ∧ ((mailerCalls (SendTo ⟨2⟩ (mockFetch ["good", "ignored", "bad"]
          [ignoredFixture, badFixture]) mockSend (mockRefresh badFixture)
          "some subject" "some body" ["good", "ignored", "bad"]).1).filter
        (fun c => decide ("ignored" ∈ c.2.2)) = [])
    ∧ ((mailerCalls (SendTo ⟨2⟩ (mockFetch ["good", "ignored", "bad"]
          [goodFixture, ignoredFixture, badFixture]) mockSend (mockRefresh badFixture)
          "some subject" "some body" ["good", "ignored", "bad"]).1).filter
        (fun c => decide ("ignored" ∈ c.2.2)) = []) := by decide

/- ============================ Claim C2 ============================== -/

/-- C2: every recipient whose fetched history (empty for a recipient
absent from the FetchHistories result) has fewer timestamps than the
threshold is included in the normal delivery cohort — the Mailer call for
that cohort carries them — its record is refreshed in the
warningJustSent=false batch, and its persisted record gains exactly one
new timestamp with LimitWarningSent false.  The final conjunct records
that a recipient absent from the fetched records is treated as having
empty history. -/
theorem C2_underQuota_delivered
    (t : Int) (now : Nat) (fetched : List EmailHistory24h)
    (recipients : List String) (r subject body : String)
    (fetchO : List String → Except String (List EmailHistory24h))
    (sendO : String → String → List String → Option String)
    (refreshO : List EmailHistory24h → Bool → Option String)
    (hfetch : fetchO recipients = Except.ok fetched)
    (hr : r ∈ recipients)
    (hq : ((findHistory fetched r).SentTimestamps24h.length : Int) < t) :
    r ∈ goodRecipients t fetched recipients
    ∧ Call.mailerSendTo subject body (goodRecipients t fetched recipients)
        ∈ (SendTo ⟨t⟩ fetchO sendO refreshO subject body recipients).1
    ∧ Call.refreshHistories
        ((goodRecipients t fetched recipients).map (findHistory fetched)) false
        ∈ (SendTo ⟨t⟩ fetchO sendO refreshO subject body recipients).1
    ∧ findHistory fetched r
        ∈ (goodRecipients t fetched recipients).map (findHistory fetched)
    ∧ persistedAfter t now fetched r
        = ⟨r, (findHistory fetched r).SentTimestamps24h ++ [now], false⟩
    ∧ ((∀ h ∈ fetched, h.Email ≠ r) →
        (findHistory fetched r).SentTimestamps24h = []) := by
  have hu : underQuota t (findHistory fetched r) = true := by
    simp only [underQuota, Bool.or_eq_true, decide_eq_true_eq]
    exact Or.inr hq
  have hg : r ∈ goodRecipients t fetched recipients :=
    List.mem_filter.mpr ⟨hr, hu⟩
  have hne : (goodRecipients t fetched recipients).isEmpty = false :=
    isEmpty_eq_false_of_mem hg
  refine ⟨hg, ?_, ?_, ?_, ?_, ?_⟩
  · rw [SendTo_ok hfetch]
    simp [sendCallsOf, hne]
  · rw [SendTo_ok hfetch]
    simp [refreshCallsOf, hne]
  · exact List.mem_map_of_mem (findHistory fetched) hg
  · simp [persistedAfter, hu, refreshEffect, findHistory_Email]
  · intro habs
    have hnone : fetched.find? (fun h => h.Email == r) = none := by
      rw [List.find?_eq_none]
      intro x hx
      simp [habs x hx]
    simp [findHistory, hnone]

/-- Witness for C2 at threshold 2, one recipient with no prior history. -/
theorem C2_witness :
    "a" ∈ (["a"] : List String)
    ∧ (((findHistory [] "a").SentTimestamps24h.length : Int) < 2)
    ∧ ("a" ∈ goodRecipients 2 [] ["a"]
      ∧ Call.mailerSendTo "s" "b" (goodRecipients 2 [] ["a"])
          ∈ (SendTo ⟨2⟩ (fun _ => Except.ok []) (fun _ _ _ => none)
              (fun _ _ => none) "s" "b" ["a"]).1
      ∧ Call.refreshHistories
          ((goodRecipients 2 [] ["a"]).map (findHistory [])) false
          ∈ (SendTo ⟨2⟩ (fun _ => Except.ok []) (fun _ _ _ => none)
              (fun _ _ => none) "s" "b" ["a"]).1
      ∧ findHistory [] "a" ∈ (goodRecipients 2 [] ["a"]).map (findHistory [])
      ∧ persistedAfter 2 7 [] "a"
          = ⟨"a", (findHistory [] "a").SentTimestamps24h ++ [7], false⟩
      ∧ ((∀ h ∈ ([] : List EmailHistory24h), h.Email ≠ "a") →
          (findHistory [] "a").SentTimestamps24h = [])) :=
  ⟨by decide, by decide,
    C2_underQuota_delivered 2 7 [] ["a"] "a" "s" "b"
      (fun _ => Except.ok []) (fun _ _ _ => none) (fun _ _ => none)
      rfl (by decide) (by decide)⟩

/-- Any warningJustSent=false refresh call inside a successful SendTo
trace carries exactly the normal cohort's records. -/
theorem mem_trace_refresh_false {subject body : String} {rs : List String}
    {fetched : List EmailHistory24h} {good bad : List String}
    {hs : List EmailHistory24h}
    (h : Call.refreshHistories hs false ∈
      (Call.fetchHistories rs
        :: sendCallsOf subject body good bad ++ refreshCallsOf fetched good bad)) :
    hs = good.map (findHistory fetched) := by
  rcases List.mem_cons.mp h with h | h
  · exact absurd h (by simp)
  rcases List.mem_append.mp h with h | h
  · exfalso
    unfold sendCallsOf at h
    rcases List.mem_append.mp h with h | h
    · cases hg : good.isEmpty <;> simp [hg] at h
    · cases hb : bad.isEmpty <;> simp [hb] at h
  · unfold refreshCallsOf at h
    rcases List.mem_append.mp h with h | h
    · cases hg : good.isEmpty <;> simp [hg] at h
      exact h
    · cases hb : bad.isEmpty <;> simp [hb] at h

/- ============================ Claim C3 ============================== -/

/-- C3 counterexample: with threshold 0 — which the spec says disables
limiting entirely — the recipient "a" satisfies the claim's hypothesis
(0 timestamps ≥ threshold 0, LimitWarningSent false) yet is included in
the normal delivery cohort, is in no warning cohort, and the only Mailer
call is the normal send to ["a"].  The claim as stated is therefore false
for non-positive thresholds. -/
theorem C3_counterexample :
    ((0 : Int) ≤ ((findHistory [] "a").SentTimestamps24h.length : Int)
      ∧ (findHistory [] "a").LimitWarningSent = false)
    ∧ "a" ∈ goodRecipients 0 [] ["a"]
    ∧ badRecipients 0 [] ["a"] = []
    ∧ mailerCalls (SendTo ⟨0⟩ (fun _ => Except.ok []) (fun _ _ _ => none)
        (fun _ _ => none) "s" "b" ["a"]).1 = [("s", "b", ["a"])] := by decide

/-- C3 (amended with a positive threshold): every recipient whose fetched
history has at least threshold timestamps and LimitWarningSent false is
excluded from the normal delivery cohort; exactly one Mailer call targets
it — the warning-style call carrying the caller's subject and body for the
warn cohort; its record is refreshed in the warningJustSent=true batch
(the normal cohort's refresh uses warningJustSent=false); and its
persisted LimitWarningSent becomes true. -/
theorem C3_newlyOver_warned
    (t : Int) (now : Nat) (fetched : List EmailHistory24h)
    (recipients : List String) (r subject body : String)
    (fetchO : List String → Except String (List EmailHistory24h))
    (sendO : String → String → List String → Option String)
    (refreshO : List EmailHistory24h → Bool → Option String)
    (hpos : 0 < t)
    (hfetch : fetchO recipients = Except.ok fetched)
    (hr : r ∈ recipients)
    (hq : t ≤ ((findHistory fetched r).SentTimestamps24h.length : Int))
    (hflag : (findHistory fetched r).LimitWarningSent = false) :
    r ∉ goodRecipients t fetched recipients
    ∧ r ∈ badRecipients t fetched recipients
    ∧ (mailerCalls (SendTo ⟨t⟩ fetchO sendO refreshO subject body recipients).1).filter
        (fun c => decide (r ∈ c.2.2))
        = [(subject, body, badRecipients t fetched recipients)]
    ∧ Call.refreshHistories
        ((badRecipients t fetched recipients).map (findHistory fetched)) true
        ∈ (SendTo ⟨t⟩ fetchO sendO refreshO subject body recipients).1
    ∧ findHistory fetched r
        ∈ (badRecipients t fetched recipients).map (findHistory fetched)
    ∧ (persistedAfter t now fetched r).LimitWarningSent = true
    ∧ (∀ hs, Call.refreshHistories hs false
          ∈ (SendTo ⟨t⟩ fetchO sendO refreshO subject body recipients).1 →
        hs = (goodRecipients t fetched recipients).map (findHistory fetched)) := by
  have hu : underQuota t (findHistory fetched r) = false := by
    simp only [underQuota, Bool.or_eq_false_iff, decide_eq_false_iff_not, not_le, not_lt]
    exact ⟨hpos, hq⟩
  have hnb : newlyOverQuota t (findHistory fetched r) = true := by
    simp [newlyOverQuota, hu, hflag]
  have hngood : r ∉ goodRecipients t fetched recipients := by
    intro hmem
    have := (List.mem_filter.mp hmem).2
    rw [hu] at this
    exact Bool.false_ne_true this
  have hb : r ∈ badRecipients t fetched recipients :=
    List.mem_filter.mpr ⟨hr, hnb⟩
  have hbne : (badRecipients t fetched recipients).isEmpty = false :=
    isEmpty_eq_false_of_mem hb
  refine ⟨hngood, hb, ?_, ?_, ?_, ?_, ?_⟩
  · simp only [SendTo_ok hfetch, mailerCalls_fetch_cons, mailerCalls_append,
      mailerCalls_refreshCallsOf, mailerCalls_sendCallsOf, List.append_nil]
    cases hg : (goodRecipients t fetched recipients).isEmpty <;>
      simp [hbne, hb, hngood, List.filter]
  · simp only [SendTo_ok hfetch]
    simp [refreshCallsOf, hbne]
  · exact List.mem_map_of_mem (findHistory fetched) hb
  · simp [persistedAfter, hu, hflag, refreshEffect]
  · intro hs hmem
    simp only [SendTo_ok hfetch] at hmem
    exact mem_trace_refresh_false hmem

/-- Witness for the amended C3 at threshold 2, one recipient with two
timestamps and the warning not yet sent. -/
theorem C3_witness :
    (0 : Int) < 2
    ∧ "a" ∈ (["a"] : List String)
    ∧ (2 : Int) ≤ ((findHistory [⟨"a", [1, 2], false⟩] "a").SentTimestamps24h.length : Int)
    ∧ (findHistory [⟨"a", [1, 2], false⟩] "a").LimitWarningSent = false
    ∧ ("a" ∉ goodRecipients 2 [⟨"a", [1, 2], false⟩] ["a"]
      ∧ "a" ∈ badRecipients 2 [⟨"a", [1, 2], false⟩] ["a"]
      ∧ (mailerCalls (SendTo ⟨2⟩ (fun _ => Except.ok [⟨"a", [1, 2], false⟩])
            (fun _ _ _ => none) (fun _ _ => none) "s" "b" ["a"]).1).filter
          (fun c => decide ("a" ∈ c.2.2))
          = [("s", "b", badRecipients 2 [⟨"a", [1, 2], false⟩] ["a"])]
      ∧ Call.refreshHistories
          ((badRecipients 2 [⟨"a", [1, 2], false⟩] ["a"]).map
            (findHistory [⟨"a", [1, 2], false⟩])) true
          ∈ (SendTo ⟨2⟩ (fun _ => Except.ok [⟨"a", [1, 2], false⟩])
              (fun _ _ _ => none) (fun _ _ => none) "s" "b" ["a"]).1
      ∧ findHistory [⟨"a", [1, 2], false⟩] "a"
          ∈ (badRecipients 2 [⟨"a", [1, 2], false⟩] ["a"]).map
            (findHistory [⟨"a", [1, 2], false⟩])
      ∧ (persistedAfter 2 7 [⟨"a", [1, 2], false⟩] "a").LimitWarningSent = true
      ∧ (∀ hs, Call.refreshHistories hs false
            ∈ (SendTo ⟨2⟩ (fun _ => Except.ok [⟨"a", [1, 2], false⟩])
                (fun _ _ _ => none) (fun _ _ => none) "s" "b" ["a"]).1 →
          hs = (goodRecipients 2 [⟨"a", [1, 2], false⟩] ["a"]).map
            (findHistory [⟨"a", [1, 2], false⟩]))) :=
  ⟨by decide, by decide, by decide, by decide,
    C3_newlyOver_warned 2 7 [⟨"a", [1, 2], false⟩] ["a"] "a" "s" "b"
      (fun _ => Except.ok [⟨"a", [1, 2], false⟩]) (fun _ _ _ => none)
      (fun _ _ => none) (by decide) rfl (by decide) (by decide) (by decide)⟩

/- ============================ Claim C4 ============================== -/

/-- C4 counterexample: the claim's blanket invariant that SendTo never
changes LimitWarningSent from true to false fails.  First input: threshold
2 and a stored record with one timestamp and LimitWarningSent true — the
recipient is under quota, so the normal send resets its persisted flag to
false.  Second input: threshold 0 (limiting disabled) and a record with
0 timestamps (≥ threshold) and LimitWarningSent true — the claim says no
delivery targets it and nothing changes, yet it is delivered to normally
and its persisted record changes. -/
theorem C4_counterexample :
    ((findHistory [⟨"a", [5], true⟩] "a").LimitWarningSent = true
      ∧ (persistedAfter 2 7 [⟨"a", [5], true⟩] "a").LimitWarningSent = false
      ∧ "a" ∈ goodRecipients 2 [⟨"a", [5], true⟩] ["a"])
    ∧ ((0 : Int) ≤ ((findHistory [⟨"b", [], true⟩] "b").SentTimestamps24h.length : Int)
      ∧ (findHistory [⟨"b", [], true⟩] "b").LimitWarningSent = true
      ∧ mailerCalls (SendTo ⟨0⟩ (fun _ => Except.ok [⟨"b", [], true⟩])
          (fun _ _ _ => none) (fun _ _ => none) "s" "b" ["b"]).1
          = [("s", "b", ["b"])]
      ∧ persistedAfter 0 7 [⟨"b", [], true⟩] "b" = ⟨"b", [7], false⟩) := by decide

/-- C4 (amended): on a limiter with a positive threshold, every recipient
whose fetched history has at least threshold timestamps and
LimitWarningSent true is in neither delivery cohort, no Mailer call in the
SendTo trace targets it, and its persisted record is unchanged — in
particular its LimitWarningSent stays true, so an at-or-over-quota
recipient's flag never transitions true to false.  (The blanket invariant
fails: an under-quota recipient with a stale true flag is reset to false
by the normal send, and a non-positive threshold disables limiting.) -/
theorem C4_suppressed_untouched
    (t : Int) (now : Nat) (fetched : List EmailHistory24h)
    (recipients : List String) (r subject body : String)
    (fetchO : List String → Except String (List EmailHistory24h))
    (sendO : String → String → List String → Option String)
    (refreshO : List EmailHistory24h → Bool → Option String)
    (hpos : 0 < t)
    (hfetch : fetchO recipients = Except.ok fetched)
    (hq : t ≤ ((findHistory fetched r).SentTimestamps24h.length : Int))
    (hflag : (findHistory fetched r).LimitWarningSent = true) :
    r ∉ goodRecipients t fetched recipients
    ∧ r ∉ badRecipients t fetched recipients
    ∧ (mailerCalls (SendTo ⟨t⟩ fetchO sendO refreshO subject body recipients).1).filter
        (fun c => decide (r ∈ c.2.2)) = []
    ∧ persistedAfter t now fetched r = findHistory fetched r
    ∧ (persistedAfter t now fetched r).LimitWarningSent = true := by
  have hu : underQuota t (findHistory fetched r) = false := by
    simp only [underQuota, Bool.or_eq_false_iff, decide_eq_false_iff_not, not_le, not_lt]
    exact ⟨hpos, hq⟩
  have hnb : newlyOverQuota t (findHistory fetched r) = false := by
    simp [newlyOverQuota, hu, hflag]
  have hngood : r ∉ goodRecipients t fetched recipients := by
    intro hmem
    have := (List.mem_filter.mp hmem).2
    rw [hu] at this
    exact Bool.false_ne_true this
  have hnbad : r ∉ badRecipients t fetched recipients := by
    intro hmem
    have := (List.mem_filter.mp hmem).2
    rw [hnb] at this
    exact Bool.false_ne_true this
  refine ⟨hngood, hnbad, ?_, ?_, ?_⟩
  · simp only [SendTo_ok hfetch, mailerCalls_fetch_cons, mailerCalls_append,
      mailerCalls_refreshCallsOf, mailerCalls_sendCallsOf, List.append_nil]
    cases hg : (goodRecipients t fetched recipients).isEmpty <;>
      cases hb : (badRecipients t fetched recipients).isEmpty <;>
      simp [hngood, hnbad, List.filter]
  · simp [persistedAfter, hu, hflag]
  · simp [persistedAfter, hu, hflag]

/-- Witness for the amended C4 at threshold 1, one suppressed recipient
(already warned) alongside a fresh recipient that is still delivered. -/
theorem C4_witness :
    (0 : Int) < 1
    ∧ (1 : Int) ≤ ((findHistory [⟨"a", [4], true⟩] "a").SentTimestamps24h.length : Int)
    ∧ (findHistory [⟨"a", [4], true⟩] "a").LimitWarningSent = true
    ∧ ("a" ∉ goodRecipients 1 [⟨"a", [4], true⟩] ["a", "c"]
      ∧ "a" ∉ badRecipients 1 [⟨"a", [4], true⟩] ["a", "c"]
      ∧ (mailerCalls (SendTo ⟨1⟩ (fun _ => Except.ok [⟨"a", [4], true⟩])
            (fun _ _ _ => none) (fun _ _ => none) "s" "b" ["a", "c"]).1).filter
          (fun c => decide ("a" ∈ c.2.2)) = []
      ∧ persistedAfter 1 9 [⟨"a", [4], true⟩] "a" = findHistory [⟨"a", [4], true⟩] "a"
      ∧ (persistedAfter 1 9 [⟨"a", [4], true⟩] "a").LimitWarningSent = true) :=
  ⟨by decide, by decide, by decide,
    C4_suppressed_untouched 1 9 [⟨"a", [4], true⟩] ["a", "c"] "a" "s" "b"
      (fun _ => Except.ok [⟨"a", [4], true⟩]) (fun _ _ _ => none)
      (fun _ _ => none) (by decide) rfl (by decide) (by decide)⟩

/- ============================ Claim C5 ============================== -/

/-- C5: when FetchHistories returns an error, SendTo makes zero Mailer
calls and zero RefreshHistories calls — the trace holds only the fetch
call — and returns that error unchanged. -/
theorem C5_fetch_error_aborts
    (l : Limiter) (subject body : String) (recipients : List String) (e : String)
    (fetchO : List String → Except String (List EmailHistory24h))
    (sendO : String → String → List String → Option String)
    (refreshO : List EmailHistory24h → Bool → Option String)
    (hfetch : fetchO recipients = Except.error e) :
    (SendTo l fetchO sendO refreshO subject body recipients).1
        = [Call.fetchHistories recipients]
    ∧ mailerCalls (SendTo l fetchO sendO refreshO subject body recipients).1 = []
    ∧ refreshCallsIn (SendTo l fetchO sendO refreshO subject body recipients).1 = []
    ∧ (SendTo l fetchO sendO refreshO subject body recipients).2 = some e := by
  rw [SendTo_error hfetch]
  exact ⟨rfl, rfl, rfl, rfl⟩

/-- Witness for C5: a store that always fails. -/
theorem C5_witness :
    ((fun _ => Except.error "store down" :
        List String → Except String (List EmailHistory24h)) ["a"]
      = Except.error "store down")
    ∧ ((SendTo ⟨2⟩ (fun _ => Except.error "store down") (fun _ _ _ => none)
          (fun _ _ => none) "s" "b" ["a"]).1 = [Call.fetchHistories ["a"]]
      ∧ mailerCalls (SendTo ⟨2⟩ (fun _ => Except.error "store down")
          (fun _ _ _ => none) (fun _ _ => none) "s" "b" ["a"]).1 = []
      ∧ refreshCallsIn (SendTo ⟨2⟩ (fun _ => Except.error "store down")
          (fun _ _ _ => none) (fun _ _ => none) "s" "b" ["a"]).1 = []
      ∧ (SendTo ⟨2⟩ (fun _ => Except.error "store down") (fun _ _ _ => none)
          (fun _ _ => none) "s" "b" ["a"]).2 = some "store down") :=
  ⟨rfl, C5_fetch_error_aborts ⟨2⟩ "s" "b" ["a"] "store down"
    (fun _ => Except.error "store down") (fun _ _ _ => none) (fun _ _ => none) rfl⟩

/- ============================ Claim C8 ============================== -/

/-- C8: a limiter with a threshold of 0 or a negative value has limiting
disabled: every recipient is under quota regardless of its stored history,
the normal-send cohort is the whole recipient list, no recipient is newly
over quota or suppressed, and when there are recipients the single Mailer
call delivers to all of them. -/
theorem C8_nonpositive_threshold_disables
    (t : Int) (fetched : List EmailHistory24h) (recipients : List String)
    (subject body : String)
    (fetchO : List String → Except String (List EmailHistory24h))
    (sendO : String → String → List String → Option String)
    (refreshO : List EmailHistory24h → Bool → Option String)
    (ht : t ≤ 0)
    (hfetch : fetchO recipients = Except.ok fetched) :
    (∀ h : EmailHistory24h, underQuota t h = true)
    ∧ goodRecipients t fetched recipients = recipients
    ∧ badRecipients t fetched recipients = []
    ∧ suppressedRecipients t fetched recipients = []
    ∧ (recipients ≠ [] →
        Call.mailerSendTo subject body recipients
          ∈ (SendTo ⟨t⟩ fetchO sendO refreshO subject body recipients).1) := by
  have hall : ∀ h : EmailHistory24h, underQuota t h = true := by
    intro h
    simp only [underQuota, Bool.or_eq_true, decide_eq_true_eq]
    exact Or.inl ht
  have hgood : goodRecipients t fetched recipients = recipients :=
    filter_of_all_true (fun x _ => hall (findHistory fetched x))
  have hbad : badRecipients t fetched recipients = [] :=
    filter_of_all_false (fun x _ => by
      simp [newlyOverQuota, hall (findHistory fetched x)])
  have hsup : suppressedRecipients t fetched recipients = [] :=
    filter_of_all_false (fun x _ => by
      simp [suppressedRecipient, hall (findHistory fetched x)])
  refine ⟨hall, hgood, hbad, hsup, ?_⟩
  intro hne
  have hgne : (goodRecipients t fetched recipients).isEmpty = false := by
    rw [hgood]
    cases recipients with
    | nil => exact absurd rfl hne
    | cons x xs => rfl
  simp only [SendTo_ok hfetch]
  simp [sendCallsOf, hgne, hgood]
  exact Or.inl hne

/-- Witness for C8: threshold 0, one recipient with a heavy, already
warned history is still delivered normally. -/
theorem C8_witness :
    (0 : Int) ≤ 0
    ∧ ((fun _ => Except.ok [⟨"a", [1, 2, 3], true⟩] :
          List String → Except String (List EmailHistory24h)) ["a"]
        = Except.ok [⟨"a", [1, 2, 3], true⟩])
    ∧ ((∀ h : EmailHistory24h, underQuota 0 h = true)
      ∧ goodRecipients 0 [⟨"a", [1, 2, 3], true⟩] ["a"] = ["a"]
      ∧ badRecipients 0 [⟨"a", [1, 2, 3], true⟩] ["a"] = []
      ∧ suppressedRecipients 0 [⟨"a", [1, 2, 3], true⟩] ["a"] = []
      ∧ ((["a"] : List String) ≠ [] →
          Call.mailerSendTo "s" "b" ["a"]
            ∈ (SendTo ⟨0⟩ (fun _ => Except.ok [⟨"a", [1, 2, 3], true⟩])
                (fun _ _ _ => none) (fun _ _ => none) "s" "b" ["a"]).1)) :=
  ⟨by decide, rfl,
    C8_nonpositive_threshold_disables 0 [⟨"a", [1, 2, 3], true⟩] ["a"] "s" "b"
      (fun _ => Except.ok [⟨"a", [1, 2, 3], true⟩]) (fun _ _ _ => none)
      (fun _ _ => none) (by decide) rfl⟩

/- ============================ Claim C6 ============================== -/

/-- C6: the cohort partition and the Mailer calls depend only on each
recipient's timestamp count and warning flag, never on the timestamp
values: two runs whose fetched histories agree per recipient on count and
flag produce identical cohorts and identical Mailer calls, even when the
stored timestamps lie arbitrarily far in the past. -/
theorem C6_partition_ignores_timestamps
    (t : Int) (f1 f2 : List EmailHistory24h) (recipients : List String)
    (subject body : String)
    (fO1 fO2 : List String → Except String (List EmailHistory24h))
    (sendO : String → String → List String → Option String)
    (refreshO : List EmailHistory24h → Bool → Option String)
    (h1 : fO1 recipients = Except.ok f1)
    (h2 : fO2 recipients = Except.ok f2)
    (hagree : ∀ r ∈ recipients,
      (findHistory f1 r).SentTimestamps24h.length
          = (findHistory f2 r).SentTimestamps24h.length
      ∧ (findHistory f1 r).LimitWarningSent = (findHistory f2 r).LimitWarningSent) :
    goodRecipients t f1 recipients = goodRecipients t f2 recipients
    ∧ badRecipients t f1 recipients = badRecipients t f2 recipients
    ∧ suppressedRecipients t f1 recipients = suppressedRecipients t f2 recipients
    ∧ mailerCalls (SendTo ⟨t⟩ fO1 sendO refreshO subject body recipients).1
        = mailerCalls (SendTo ⟨t⟩ fO2 sendO refreshO subject body recipients).1 := by
  have hu : ∀ r ∈ recipients,
      underQuota t (findHistory f1 r) = underQuota t (findHistory f2 r) := by
    intro r hr
    unfold underQuota
    rw [(hagree r hr).1]
  have hno : ∀ r ∈ recipients,
      newlyOverQuota t (findHistory f1 r) = newlyOverQuota t (findHistory f2 r) := by
    intro r hr
    unfold newlyOverQuota
    rw [hu r hr, (hagree r hr).2]
  have hsu : ∀ r ∈ recipients,
      suppressedRecipient t (findHistory f1 r)
        = suppressedRecipient t (findHistory f2 r) := by
    intro r hr
    unfold suppressedRecipient
    rw [hu r hr, (hagree r hr).2]
  have hgood : goodRecipients t f1 recipients = goodRecipients t f2 recipients :=
    filter_congr_of_eq hu
  have hbad : badRecipients t f1 recipients = badRecipients t f2 recipients :=
    filter_congr_of_eq hno
  have hsup : suppressedRecipients t f1 recipients = suppressedRecipients t f2 recipients :=
    filter_congr_of_eq hsu
  refine ⟨hgood, hbad, hsup, ?_⟩
  simp only [SendTo_ok h1, SendTo_ok h2, mailerCalls_fetch_cons, mailerCalls_append,
    mailerCalls_refreshCallsOf, mailerCalls_sendCallsOf, List.append_nil]
  rw [hgood, hbad]

/-- Witness for C6: the same recipient with one stored timestamp of 100 in
one run and one stored timestamp far in the past in the other. -/
theorem C6_witness :
    ((fun _ => Except.ok [⟨"a", [100], false⟩] :
        List String → Except String (List EmailHistory24h)) ["a"]
      = Except.ok [⟨"a", [100], false⟩])
    ∧ (∀ r ∈ (["a"] : List String),
        (findHistory [⟨"a", [100], false⟩] r).SentTimestamps24h.length
            = (findHistory [⟨"a", [999999], false⟩] r).SentTimestamps24h.length
        ∧ (findHistory [⟨"a", [100], false⟩] r).LimitWarningSent
            = (findHistory [⟨"a", [999999], false⟩] r).LimitWarningSent)
    ∧ (goodRecipients 2 [⟨"a", [100], false⟩] ["a"]
          = goodRecipients 2 [⟨"a", [999999], false⟩] ["a"]
      ∧ badRecipients 2 [⟨"a", [100], false⟩] ["a"]
          = badRecipients 2 [⟨"a", [999999], false⟩] ["a"]
      ∧ suppressedRecipients 2 [⟨"a", [100], false⟩] ["a"]
          = suppressedRecipients 2 [⟨"a", [999999], false⟩] ["a"]
      ∧ mailerCalls (SendTo ⟨2⟩ (fun _ => Except.ok [⟨"a", [100], false⟩])
            (fun _ _ _ => none) (fun _ _ => none) "s" "b" ["a"]).1
          = mailerCalls (SendTo ⟨2⟩ (fun _ => Except.ok [⟨"a", [999999], false⟩])
            (fun _ _ _ => none) (fun _ _ => none) "s" "b" ["a"]).1) :=
  ⟨rfl, by decide,
    C6_partition_ignores_timestamps 2 [⟨"a", [100], false⟩] [⟨"a", [999999], false⟩]
      ["a"] "s" "b" (fun _ => Except.ok [⟨"a", [100], false⟩])
      (fun _ => Except.ok [⟨"a", [999999], false⟩]) (fun _ _ _ => none)
      (fun _ _ => none) rfl rfl (by decide)⟩

/- ============================ Claim C7 ============================== -/

/-- C7: transport or persistence failures never change which calls SendTo
makes — the trace is identical to the all-success run, so a failure on one
cohort prevents neither the other cohort's delivery nor the refresh calls
— and the returned error is the first failure among the made calls in
execution order (normal send, warning send, normal refresh, warning
refresh), none when all succeed. -/
theorem C7_failures_do_not_block
    (l : Limiter) (subject body : String) (recipients : List String)
    (fetched : List EmailHistory24h)
    (fetchO : List String → Except String (List EmailHistory24h))
    (sendO : String → String → List String → Option String)
    (refreshO : List EmailHistory24h → Bool → Option String)
    (hfetch : fetchO recipients = Except.ok fetched) :
    (SendTo l fetchO sendO refreshO subject body recipients).1
        = (SendTo l fetchO (fun _ _ _ => none) (fun _ _ => none)
            subject body recipients).1
    ∧ (SendTo l fetchO sendO refreshO subject body recipients).2
        = firstError
            (((SendTo l fetchO sendO refreshO subject body recipients).1).filterMap
              (callOutcome sendO refreshO)) := by
  constructor
  · simp only [SendTo_ok hfetch]
  · simp only [SendTo_ok hfetch]
    unfold sendCallsOf refreshCallsOf errListOf
    cases hg : (goodRecipients l.threshold fetched recipients).isEmpty <;>
      cases hb : (badRecipients l.threshold fetched recipients).isEmpty <;>
      simp [callOutcome, List.filterMap]

/-- Witness for C7: a mailer that always fails and a store whose refresh
always fails still leave the trace equal to the all-success trace, and the
result is the first failure. -/
theorem C7_witness :
    ((fun _ => Except.ok [⟨"a", [1, 2], true⟩] :
        List String → Except String (List EmailHistory24h)) ["a", "c"]
      = Except.ok [⟨"a", [1, 2], true⟩])
    ∧ ((SendTo ⟨2⟩ (fun _ => Except.ok [⟨"a", [1, 2], true⟩])
          (fun _ _ _ => some "transport down") (fun _ _ => some "refresh down")
          "s" "b" ["a", "c"]).1
        = (SendTo ⟨2⟩ (fun _ => Except.ok [⟨"a", [1, 2], true⟩])
            (fun _ _ _ => none) (fun _ _ => none) "s" "b" ["a", "c"]).1
      ∧ (SendTo ⟨2⟩ (fun _ => Except.ok [⟨"a", [1, 2], true⟩])
          (fun _ _ _ => some "transport down") (fun _ _ => some "refresh down")
          "s" "b" ["a", "c"]).2
        = firstError
            (((SendTo ⟨2⟩ (fun _ => Except.ok [⟨"a", [1, 2], true⟩])
                (fun _ _ _ => some "transport down") (fun _ _ => some "refresh down")
                "s" "b" ["a", "c"]).1).filterMap
              (callOutcome (fun _ _ _ => some "transport down")
                (fun _ _ => some "refresh down")))) :=
  ⟨rfl, C7_failures_do_not_block ⟨2⟩ "s" "b" ["a", "c"] [⟨"a", [1, 2], true⟩]
    (fun _ => Except.ok [⟨"a", [1, 2], true⟩]) (fun _ _ _ => some "transport down")
    (fun _ _ => some "refresh down") rfl⟩

/- ============================ Claim C9 ============================== -/

/-- C9: in handleInvoiceDetails, handleInvoiceComments and
handleDCCComments, a session lookup that fails with
sessions.ErrSessionNotFound is not treated as an error — the handler
continues with a nil user and responds with the processing result — while
any other session lookup error aborts the request with an error
response. -/
theorem C9_session_not_found_tolerated :
    ∀ (U R P : Type) (token m : String) (pd : P)
      (procDetails : P → String → Option U → Except String R)
      (procComments procDCC : String → Option U → Except String R),
    (handleInvoiceDetails (Except.ok pd) token SessionLookup.errSessionNotFound
        procDetails
      = (match procDetails pd token none with
         | Except.error e =>
            HandlerOut.respondWithError ("handleInvoiceDetails: processInvoiceDetails " ++ e)
         | Except.ok r => HandlerOut.respondWithJSON r))
    ∧ (handleInvoiceDetails (Except.ok pd) token (SessionLookup.err m) procDetails
      = HandlerOut.respondWithError ("handleInvoiceDetails: getSessionUser " ++ m))
    ∧ (handleInvoiceComments token SessionLookup.errSessionNotFound procComments
      = (match procComments token none with
         | Except.error e =>
            HandlerOut.respondWithError ("handleInvoiceComments: processInvoiceComments " ++ e)
         | Except.ok r => HandlerOut.respondWithJSON r))
    ∧ (handleInvoiceComments token (SessionLookup.err m) procComments
      = HandlerOut.respondWithError ("handleInvoiceComments: getSessionUser " ++ m))
    ∧ (handleDCCComments token SessionLookup.errSessionNotFound procDCC
      = (match procDCC token none with
         | Except.error e =>
            HandlerOut.respondWithError ("handleDCCComments: processDCCComments " ++ e)
         | Except.ok r => HandlerOut.respondWithJSON r))
    ∧ (handleDCCComments token (SessionLookup.err m) procDCC
      = HandlerOut.respondWithError ("handleDCCComments: getSessionUser " ++ m)) := by
  intro U R P token m pd procDetails procComments procDCC
  refine ⟨rfl, rfl, rfl, rfl, rfl, rfl⟩

/- ============================ Claim C10 ============================= -/

/-- C10: cmdBestBlock returns a StatusDisconnected reply only when the
cached best block is non-zero and stale and the manual HTTP fetch fails,
and then the reply carries the stale cached height; a zero cached height
with a failed fetch yields an error instead of a reply; every other case
(fresh non-zero cache, or successful fetch) replies StatusConnected. -/
theorem C10_cmdBestBlock_status :
    ∀ (bb height : Nat) (isStale : Bool) (httpRes : Except String Nat)
      (h : Nat) (e : String),
    (cmdBestBlock 0 isStale (Except.ok height)
        = Except.ok ⟨BBStatus.StatusConnected, height⟩
      ∧ cmdBestBlock 0 isStale (Except.error e)
        = Except.error ("bestBlockHTTP: " ++ e)
      ∧ cmdBestBlock (bb + 1) false httpRes
        = Except.ok ⟨BBStatus.StatusConnected, bb + 1⟩
      ∧ cmdBestBlock (bb + 1) true (Except.ok height)
        = Except.ok ⟨BBStatus.StatusConnected, height⟩
      ∧ cmdBestBlock (bb + 1) true (Except.error e)
        = Except.ok ⟨BBStatus.StatusDisconnected, bb + 1⟩)
    ∧ (cmdBestBlock bb isStale httpRes
          = Except.ok ⟨BBStatus.StatusDisconnected, h⟩ →
        bb ≠ 0 ∧ isStale = true ∧ h = bb ∧ ∃ e2, httpRes = Except.error e2) := by
  intro bb height isStale httpRes h e
  constructor
  · refine ⟨?_, ?_, ?_, ?_, ?_⟩ <;>
      simp [cmdBestBlock]
  · intro heq
    cases bb with
    | zero =>
      cases httpRes with
      | ok v => simp [cmdBestBlock] at heq
      | error e2 => simp [cmdBestBlock] at heq
    | succ k =>
      cases isStale with
      | false => simp [cmdBestBlock] at heq
      | true =>
        cases httpRes with
        | ok v => simp [cmdBestBlock] at heq
        | error e2 =>
          simp [cmdBestBlock] at heq
          exact ⟨Nat.succ_ne_zero k, rfl, heq.symm, e2, rfl⟩

/-- Witness for C10: a stale cached height of 5 with a failing HTTP fetch
yields a StatusDisconnected reply carrying the stale height. -/
theorem C10_witness :
    cmdBestBlock 5 true (Except.error "x")
        = Except.ok ⟨BBStatus.StatusDisconnected, 5⟩
    ∧ ((5 : Nat) ≠ 0 ∧ true = true ∧ (5 : Nat) = 5
      ∧ ∃ e2, (Except.error "x" : Except String Nat) = Except.error e2) :=
  ⟨rfl,
    (C10_cmdBestBlock_status 5 0 true (Except.error "x") 5 "x").2 rfl⟩
